import Mathlib

/-!
Verification of the archivist-agent retrieval pipeline.

This file gives a shallow embedding, in Lean, of the core of the repository:

* `Archivist.Tools` models `src/archivist_agent/agent/google_adk_rag_tools/tools.py`
  (the chunker `_chunk_text`, text extraction `_extract_text`, the ingestion
  boundary `add_document_to_knowledge_base` and the query boundary
  `query_knowledge_base` over a ChromaDB collection modelled as a list of
  records).
* `Archivist.PdfLoader` models `src/archivist_agent/agent/pdf_loader.py`
  (the corruption classifier `_is_database_error`, the vectorstore lifecycle
  `get_or_create_vectorstore` / `reset_vectorstore`, the retrieval loop
  `_retrieve_documents` and the answer operation `query_rag_system_local`).

External collaborators (the filesystem, PyMuPDF, the sentence-transformers
embedding model, ChromaDB's search, the generation pipeline) are modelled as
oracle fields of an environment structure; Python exceptions are modelled as
`Except String` values carrying the exception message; the mutable module
globals are modelled as explicit world/state records threaded through every
operation (mutations survive a raised exception, as in Python).
-/

deriving instance DecidableEq for Except

namespace Archivist

/-! ## Python string primitives

Python's `needle in hay` substring test, `str.strip`, negative indexing and
slicing, modelled over `List Char`. -/
/-- Here `startsWithNeedle needle hay` is true iff `needle` is an initial segment of
`hay` (the needle comes first). -/
def startsWithNeedle : List Char → List Char → Bool
  | [], _ => true
  | _ :: _, [] => false
  | a :: as, b :: bs => a = b && startsWithNeedle as bs

/-- Python's `needle in hay` contiguous-substring test. -/
def containsSubstring (hay needle : List Char) : Bool :=
  match hay with
  | [] => startsWithNeedle needle []
  | _ :: t => startsWithNeedle needle hay || containsSubstring t needle

/-- Python's `str.strip()` (trim leading and trailing whitespace) on a
character list. -/
def trimChars (s : List Char) : List Char :=
  ((s.dropWhile Char.isWhitespace).reverse.dropWhile Char.isWhitespace).reverse

/-- Python's `str.strip()` on a string (structural, so that it evaluates by
kernel reduction, unlike `String.trim`). -/
def strTrim (s : String) : String := String.mk (trimChars s.toList)

/-- Python's `str.lower()` (structural, so that it evaluates by kernel
reduction, unlike `String.toLower`). -/
def strLower (s : String) : String := String.mk (s.toList.map Char.toLower)

/-- Python character indexing `text[i]`: negative indices count from the end,
anything still out of range is an `IndexError`. -/
def pyGetChar (s : List Char) (i : Int) : Except String Char :=
  let j : Int := if i < 0 then (s.length : Int) + i else i
  if h : 0 ≤ j ∧ j.toNat < s.length then .ok (s.get ⟨j.toNat, h.2⟩)
  else .error "string index out of range"

/-- Python slicing `text[start:stop]` for a natural `start` and an integer
`stop` (a negative `stop` counts from the end; bounds are clamped). -/
def pySlice (s : List Char) (start : Nat) (stop : Int) : List Char :=
  let stopN : Nat := if stop < 0 then ((s.length : Int) + stop).toNat
                     else min stop.toNat s.length
  (s.take stopN).drop start

end Archivist

namespace Archivist.PdfLoader

/-! ## pdf_loader.py: corruption classification (`_is_database_error`) -/
/-- The fixed substrings of `_is_database_error`
(`db_error_indicators` in `pdf_loader.py`). -/
def dbErrorIndicators : List String :=
  ["disk i/o error", "database error", "error getting collection"]

/-- Model of `_is_database_error`: the error message, lower-cased, contains one of the
fixed indicator substrings. -/
def isDatabaseError (msg : String) : Bool :=
  dbErrorIndicators.any (fun ind => containsSubstring (strLower msg).toList ind.toList)

end Archivist.PdfLoader

namespace Archivist.Tools

/-! ## tools.py: the chunker `_chunk_text`

The source loop is:

```
if len(text) <= chunk_size: return [text]
chunks = []; start = 0
while start < len(text):
    end = start + chunk_size
    if end < len(text):
        for i in range(end - 1, start + chunk_size - 100, -1):
            if text[i] in '.!?\n': end = i + 1; break
    chunk = text[start:end].strip()
    if chunk: chunks.append(chunk)
    if end >= len(text): break
    start = max(end - overlap, start + 1)
return chunks
```

The backward search and the slice use Python index/slice semantics (modelled
above); the loop is modelled with explicit fuel, and `chunkText` supplies
fuel `len(text) + 1`, which `chunkText_ne_none` proves sufficient. -/
/-- The backward sentence-boundary search
`for i in range(from, lo, -1): if text[i] in '.!?\n': ...`:
returns `some (i+1)` for the first (largest) `i` with a boundary character,
`none` if the range is exhausted; propagates an `IndexError` from `text[i]`. -/
def findCut (s : List Char) (i lo : Int) : Except String (Option Int) :=
  if h : i ≤ lo then .ok none
  else
    match pyGetChar s i with
    | .error e => .error e
    | .ok c =>
      if c = '.' ∨ c = '!' ∨ c = '?' ∨ c = '\n' then .ok (some (i + 1))
      else findCut s (i - 1) lo
termination_by (i - lo).toNat
decreasing_by
  simp only [not_le] at h
  omega

/-- One iteration body of the chunking loop: computes the cut position and the
chunk to (maybe) append. Returns `(chunk?, end)`. -/
def chunkStep (s : List Char) (size : Nat) (start : Nat) :
    Except String (Option (List Char) × Int) :=
  let end0 : Int := (start : Int) + size
  let endE : Except String Int :=
    if end0 < (s.length : Int) then
      match findCut s (end0 - 1) ((start : Int) + (size : Int) - 100) with
      | .error e => .error e
      | .ok (some cut) => .ok cut
      | .ok none => .ok end0
    else .ok end0
  match endE with
  | .error e => .error e
  | .ok stop =>
    let chunk := trimChars (pySlice s start stop)
    .ok ((if chunk.isEmpty then none else some chunk), stop)

/-- Model of `start = max(end - overlap, start + 1)`: the next window start. -/
def nextStart (start : Nat) (stop : Int) (overlap : Nat) : Nat :=
  max (stop - (overlap : Int)).toNat (start + 1)

/-- The chunking loop with explicit fuel; `none` means the fuel ran out
(shown unreachable for fuel `> len(text) - start` by `chunkLoopFuel_ne_none`). -/
def chunkLoopFuel (s : List Char) (size overlap : Nat) :
    Nat → Nat → List (List Char) → Option (Except String (List (List Char)))
  | 0, _, _ => none
  | fuel + 1, start, acc =>
    if start < s.length then
      match chunkStep s size start with
      | .error e => some (.error e)
      | .ok (chunk?, stop) =>
        let acc' := match chunk? with
          | some c => acc ++ [c]
          | none => acc
        if (s.length : Int) ≤ stop then some (.ok acc')
        else chunkLoopFuel s size overlap fuel (nextStart start stop overlap) acc'
    else some (.ok acc)

/-- Model of `_chunk_text(text, chunk_size, overlap)`. The short-text fast path returns
`[text]` (note: without trimming); otherwise the loop runs with fuel
`len(text) + 1`. -/
def chunkText (s : List Char) (size overlap : Nat) :
    Option (Except String (List (List Char))) :=
  if s.length ≤ size then some (.ok [s])
  else chunkLoopFuel s size overlap (s.length + 1) 0 []

/-! ## tools.py: paths, extraction, the ChromaDB collection model -/
/-- An ASCII single-quote character, used in the source's success message
`f"Documento '{file_name}' procesado exitosamente"`. -/
def sq : String := String.singleton (Char.ofNat 39)

/-- Model of `os.path.basename`: the component after the last slash. -/
def basename (p : String) : String :=
  String.mk ((p.toList.reverse.takeWhile (fun c => c ≠ '/')).reverse)

/-- Model of `pathlib.Path(p).suffix`: the extension of the final component — the part
from the last dot `i` onward, provided `0 < i < len(name) - 1`; else `""`. -/
def pathSuffix (p : String) : String :=
  let name := (basename p).toList
  match name.reverse.findIdx? (fun c => c = '.') with
  | none => ""
  | some rpos =>
    let i := name.length - 1 - rpos
    if 0 < i ∧ i < name.length - 1 then String.mk (name.drop i) else ""

/-- One record of the ChromaDB collection: id, document text, embedding
vector, and the metadata written by `add_document_to_knowledge_base`
(`filename`, `file_path`, `chunk_index`). -/
structure Rec where
  id : String
  doc : List Char
  embedding : List ℚ
  filename : String
  filePath : String
  chunkIndex : Nat
deriving DecidableEq

/-- Metadata of a search hit as the query side reads it (`metadata.get` with
defaults, so each field may be absent). -/
structure Meta where
  filename : Option String
  filePath : Option String
  chunkIndex : Option Nat
deriving DecidableEq

/-- One hit of `collection.query`: ChromaDB returns the parallel aligned lists
`documents[0]`, `metadatas[0]`, `distances[0]`; a hit is one aligned triple.
(The source's `if results['metadatas']`/`if results['distances']` guards are
always taken since both are in the `include` list.) -/
structure Hit where
  doc : List Char
  meta : Meta
  distance : ℚ
deriving DecidableEq

/-- The external collaborators of tools.py as oracles: the filesystem and
PyMuPDF behind `_extract_text`, the sentence-transformers model behind
`_get_embedding_model`/`encode`, ChromaDB client/collection creation,
ChromaDB's `get`/`delete` pair inside the delete-before-add block
(`getDelete n` is the outcome of the `n`-th such block — an error is the
exception the bare `except: pass` swallows, leaving the store untouched),
ChromaDB's `add` (`addRecords n` is the outcome of the `n`-th `add` call —
an error propagates to the boundary `except`), and ChromaDB's
nearest-neighbour search. `Except.error` carries the message of the
exception the collaborator raises. -/
structure TEnv where
  fsExists : String → Bool
  readPdf : String → Except String String
  readFile : String → Except String String
  loadModel : Except String Unit
  encode : List Char → List ℚ
  initCollection : Except String Unit
  getDelete : Nat → Except String Unit
  addRecords : Nat → Except String Unit
  search : List ℚ → Nat → List Rec → Except String (List Hit)

/-- The module globals of tools.py: `_embedding_model`, `_collection`
(lazily initialized), and the persisted contents of the collection, plus two
call counters indexing the `getDelete`/`addRecords` oracles. -/
structure TWorld where
  modelLoaded : Bool
  collectionInit : Bool
  store : List Rec
  deleteCalls : Nat
  addCalls : Nat
deriving DecidableEq

/-- Model of `_extract_text(file_path)`: existence check, extension dispatch
(`.pdf` via PyMuPDF, `.txt`/`.md`/`.markdown` via `open().read()`, both
stripped), unsupported extensions raise. -/
def extractText (env : TEnv) (fp : String) : Except String (List Char) :=
  if env.fsExists fp = false then .error ("Archivo no encontrado: " ++ fp)
  else
    let ext := strLower (pathSuffix fp)
    if ext = ".pdf" then
      match env.readPdf fp with
      | .ok t => .ok (trimChars t.toList)
      | .error e => .error e
    else if ext = ".txt" ∨ ext = ".md" ∨ ext = ".markdown" then
      match env.readFile fp with
      | .ok t => .ok (trimChars t.toList)
      | .error e => .error e
    else .error ("Formato no soportado: " ++ ext ++ ". Soportados: .pdf, .txt, .md")

/-- Model of `_get_embedding_model()`: lazy singleton; a load failure is re-raised with
the `"Error cargando modelo de embeddings: "` prefix. -/
def getEmbeddingModel (env : TEnv) (w : TWorld) : Except String Unit × TWorld :=
  if w.modelLoaded then (.ok (), w)
  else
    match env.loadModel with
    | .ok _ => (.ok (), { w with modelLoaded := true })
    | .error e => (.error ("Error cargando modelo de embeddings: " ++ e), w)

/-- Model of `_get_chroma_collection()`: lazy singleton creation of the persistent
client and collection; the stored records themselves live in `TWorld.store`. -/
def getChromaCollection (env : TEnv) (w : TWorld) : Except String Unit × TWorld :=
  if w.collectionInit then (.ok (), w)
  else
    match env.initCollection with
    | .ok _ => (.ok (), { w with collectionInit := true })
    | .error e => (.error e, w)

/-- The store transformation a *successful* delete-before-add block performs:
`existing = collection.get(where={"filename": file_name})` followed by
`collection.delete(ids=existing['ids'])` when the id list is non-empty. -/
def delStore (st : List Rec) (name : String) : List Rec :=
  let ids := (st.filter (fun r => r.filename == name)).map (fun r => r.id)
  if ids.isEmpty then st
  else st.filter (fun r => !(ids.contains r.id))

/-- The delete-before-add block of `add_document_to_knowledge_base`
(tools.py lines 167-172). The whole `collection.get`/`collection.delete`
pair sits inside `try: ... except: pass`: when either call raises (the
`getDelete` oracle says `.error`), the exception is swallowed and the store
is left unchanged — stale chunks for `name` survive. Only on `.ok` does the
store transformation `delStore` happen. -/
def deleteExisting (env : TEnv) (w : TWorld) (name : String) : TWorld :=
  let n := w.deleteCalls
  let w1 := { w with deleteCalls := n + 1 }
  match env.getDelete n with
  | .error _ => w1
  | .ok _ => { w1 with store := delStore w1.store name }

/-- The records written by `collection.add(documents=chunks, embeddings=...,
metadatas=..., ids=ids)` with `ids = [f"{file_name}_{i}" ...]` and
`metadatas = [{"filename": .., "file_path": .., "chunk_index": i} ...]`. -/
def mkRecords (name fp : String) (encode : List Char → List ℚ)
    (chunks : List (List Char)) : List Rec :=
  chunks.enum.map (fun p =>
    { id := name ++ "_" ++ toString p.1
      doc := p.2
      embedding := encode p.2
      filename := name
      filePath := fp
      chunkIndex := p.1 })

/-- The structured result dictionary of `add_document_to_knowledge_base`
(the wall-clock `processing_time` field is omitted from the model; the
`file_name`/`file_path` keys are present only in the success dictionary). -/
structure IngestResult where
  success : Bool
  message : String
  chunksAdded : Nat
  fileName : Option String
  filePath : Option String
deriving DecidableEq

/-- The body of `add_document_to_knowledge_base` (everything inside the
outer `try`): a normally-returned result is `.ok`, a raised exception is
`.error`. The delete-before-add block swallows its own exceptions
(`deleteExisting`); `collection.add` may raise (the `addRecords` oracle), in
which case nothing is stored and the exception reaches the boundary. The
`chunkText` fuel-exhaustion branch is unreachable (`chunkText_ne_none`). -/
def addDocBody (env : TEnv) (w : TWorld) (fp : String) :
    Except String IngestResult × TWorld :=
  if fp = "" then
    (.ok { success := false, message := "file_path debe ser una cadena válida",
           chunksAdded := 0, fileName := none, filePath := none }, w)
  else
    match extractText env fp with
    | .error e => (.error e, w)
    | .ok text =>
      if text.isEmpty then
        (.ok { success := false, message := "No se pudo extraer texto del archivo",
               chunksAdded := 0, fileName := none, filePath := none }, w)
      else
        match chunkText text 1000 200 with
        | none => (.error "chunking fuel exhausted (unreachable)", w)
        | some (.error e) => (.error e, w)
        | some (.ok chunks) =>
          match getEmbeddingModel env w with
          | (.error e, w1) => (.error e, w1)
          | (.ok _, w1) =>
            match getChromaCollection env w1 with
            | (.error e, w2) => (.error e, w2)
            | (.ok _, w2) =>
              let name := basename fp
              let w3 := deleteExisting env w2 name
              let newRecs := mkRecords name fp env.encode chunks
              let w4 := { w3 with addCalls := w3.addCalls + 1 }
              match env.addRecords w3.addCalls with
              | .error e => (.error e, w4)
              | .ok _ =>
                (.ok { success := true,
                       message := "Documento " ++ sq ++ name ++ sq ++ " procesado exitosamente",
                       chunksAdded := chunks.length,
                       fileName := some name, filePath := some fp },
                 { w4 with store := w4.store ++ newRecs })

/-- Model of `add_document_to_knowledge_base(file_path)`: the boundary `try`/`except`
converts any raised exception into a `success=false` structured result. -/
def addDocumentToKnowledgeBase (env : TEnv) (w : TWorld) (fp : String) :
    IngestResult × TWorld :=
  match addDocBody env w fp with
  | (.ok r, w') => (r, w')
  | (.error e, w') =>
    ({ success := false, message := "Error procesando documento: " ++ e,
       chunksAdded := 0, fileName := none, filePath := none }, w')

/-! ## tools.py: `query_knowledge_base`

Python floats are modelled as rationals; `round(x, 4)` is round-half-to-even
on the 4-decimal grid. -/
/-- Round to the nearest integer, ties to even (Python's `round`).
(`Rat.floor` rather than `Int.floor` so that the definition evaluates by
kernel reduction; the two agree by `Rat.floor_def'`.) -/
def roundHalfEven (x : ℚ) : ℤ :=
  let n := x.floor
  let r := x - n
  if r < 1 / 2 then n
  else if 1 / 2 < r then n + 1
  else if n % 2 = 0 then n else n + 1

/-- Python's `round(x, 4)`. -/
def round4 (x : ℚ) : ℚ :=
  (roundHalfEven (x * 10000) : ℚ) / 10000

/-- One formatted result dictionary of `query_knowledge_base`:
`{"content", "score", "source", "file_path", "chunk_index"}`. -/
structure FormattedHit where
  content : List Char
  score : ℚ
  source : String
  filePath : String
  chunkIndex : Nat
deriving DecidableEq

/-- The result-formatting loop of `query_knowledge_base` (identical to the
loop in `gemini_rag/retrieval.py::get_relevant_passages`):
`score = 1.0 - distance`, then `round(score, 4)`, with `metadata.get`
defaults `'unknown'`/`'unknown'`/`0`; an empty hit list yields `[]`. -/
def formatHits (hits : List Hit) : List FormattedHit :=
  hits.map (fun h =>
    { content := h.doc
      score := round4 (1 - h.distance)
      source := h.meta.filename.getD "unknown"
      filePath := h.meta.filePath.getD "unknown"
      chunkIndex := h.meta.chunkIndex.getD 0 })

/-- The structured result dictionary of `query_knowledge_base`
(`processing_time` omitted; the `query` key is absent from the blank-query
validation dictionary, hence `Option`). -/
structure QueryKBResult where
  success : Bool
  query : Option String
  resultsCount : Nat
  results : List FormattedHit
  message : String
deriving DecidableEq

/-- The body of `query_knowledge_base` (everything inside the `try`). -/
def queryKBBody (env : TEnv) (w : TWorld) (q : String) (topK : Int) :
    Except String QueryKBResult × TWorld :=
  if q = "" ∨ strTrim q = "" then
    (.ok { success := false, query := none, resultsCount := 0, results := [],
           message := "query debe ser una cadena no vacía" }, w)
  else
    let k : Int := if topK < 1 ∨ 20 < topK then 3 else topK
    match getEmbeddingModel env w with
    | (.error e, w1) => (.error e, w1)
    | (.ok _, w1) =>
      let qEmb := env.encode (strTrim q).toList
      match getChromaCollection env w1 with
      | (.error e, w2) => (.error e, w2)
      | (.ok _, w2) =>
        match env.search qEmb (min k (w2.store.length : Int)).toNat w2.store with
        | .error e => (.error e, w2)
        | .ok hits =>
          let formatted := formatHits hits
          (.ok { success := true, query := some (strTrim q),
                 resultsCount := formatted.length, results := formatted,
                 message :=
                   if formatted.isEmpty then "No se encontraron documentos relevantes"
                   else "Encontrados " ++ toString formatted.length ++
                     " documento(s) relevante(s)" }, w2)

/-- Model of `query_knowledge_base(query, top_k)`: the boundary `try`/`except` converts
any raised exception into a `success=false` structured result. -/
def queryKnowledgeBase (env : TEnv) (w : TWorld) (q : String) (topK : Int) :
    QueryKBResult × TWorld :=
  match queryKBBody env w q topK with
  | (.ok r, w') => (r, w')
  | (.error e, w') =>
    ({ success := false, query := some (if q = "" then "" else strTrim q),
       resultsCount := 0, results := [],
       message := "Error en consulta: " ++ e }, w')

/-- A hit at distance `1/100000`, the concrete input of the C9 counterexample. -/
def cexHit : Hit :=
  { doc := ['a'], meta := { filename := none, filePath := none, chunkIndex := none },
    distance := 1 / 100000 }

/-- Concrete ascending-distance hit list for the C9 witness (integer-valued
distances so that the hypothesis is decidable by kernel reduction). -/
def witHits : List Hit :=
  [{ doc := ['a'], meta := { filename := some "f", filePath := none, chunkIndex := some 0 },
     distance := 0 },
   { doc := ['b'], meta := { filename := none, filePath := none, chunkIndex := none },
     distance := 1 }]

/-! ### C5/C10: the ingestion invariant -/
/-- The chunk list a successful ingestion of `fp` stores (the success path of
`add_document_to_knowledge_base`): validation, extraction, non-emptiness,
chunking. -/
def ingestedChunks (env : TEnv) (fp : String) : Option (List (List Char)) :=
  if fp = "" then none
  else
    match extractText env fp with
    | .error _ => none
    | .ok text =>
      if text.isEmpty then none
      else
        match chunkText text 1000 200 with
        | some (.ok chunks) => some chunks
        | _ => none

/-- Ingestion environment for the C5/C10 witnesses: every path exists, text
files read as `"hello " ++ path`, embeddings are empty vectors. -/
def cenvOk : TEnv where
  fsExists := fun _ => true
  readPdf := fun _ => .error "pdf"
  readFile := fun p => .ok ("hello " ++ p)
  loadModel := .ok ()
  encode := fun _ => []
  initCollection := .ok ()
  getDelete := fun _ => .ok ()
  addRecords := fun _ => .ok ()
  search := fun _ _ _ => .ok []

/-- A pre-populated world for the C5 witness: one stale chunk stored for
`d.txt` (from an earlier path) and one chunk for an unrelated `k.txt`. -/
def cwPre : TWorld :=
  { modelLoaded := false, collectionInit := false,
    store := [{ id := "d.txt_0", doc := ['o'], embedding := [],
                filename := "d.txt", filePath := "old/d.txt", chunkIndex := 0 },
              { id := "k.txt_0", doc := ['k'], embedding := [],
                filename := "k.txt", filePath := "k.txt", chunkIndex := 0 }],
    deleteCalls := 0, addCalls := 0 }

def cr5 : IngestResult := (addDocumentToKnowledgeBase cenvOk cwPre "a/d.txt").1

def cw5 : TWorld := (addDocumentToKnowledgeBase cenvOk cwPre "a/d.txt").2

def crA : IngestResult :=
  (addDocumentToKnowledgeBase cenvOk
    { modelLoaded := false, collectionInit := false, store := [],
      deleteCalls := 0, addCalls := 0 } "old/d.txt").1

def cwA : TWorld :=
  (addDocumentToKnowledgeBase cenvOk
    { modelLoaded := false, collectionInit := false, store := [],
      deleteCalls := 0, addCalls := 0 } "old/d.txt").2

def crB : IngestResult := (addDocumentToKnowledgeBase cenvOk cwA "a/d.txt").1

def cwB : TWorld := (addDocumentToKnowledgeBase cenvOk cwA "a/d.txt").2

/-- Environment in which ingestion fails (the file does not exist). -/
def cenvMissing : TEnv where
  fsExists := fun _ => false
  readPdf := fun _ => .error "pdf"
  readFile := fun _ => .error "file"
  loadModel := .ok ()
  encode := fun _ => []
  initCollection := .ok ()
  getDelete := fun _ => .ok ()
  addRecords := fun _ => .ok ()
  search := fun _ _ _ => .ok []

/-- Environment in which the query fails (collection creation raises). -/
def cenvQFail : TEnv where
  fsExists := fun _ => true
  readPdf := fun _ => .error "pdf"
  readFile := fun _ => .ok "hello"
  loadModel := .ok ()
  encode := fun _ => []
  initCollection := .error "db down"
  getDelete := fun _ => .ok ()
  addRecords := fun _ => .ok ()
  search := fun _ _ _ => .ok []

/-- The fresh-process world of tools.py: no model, no collection, empty store. -/
def cw0 : TWorld :=
  { modelLoaded := false, collectionInit := false, store := [],
    deleteCalls := 0, addCalls := 0 }

/-- Ingestion environment whose delete-before-add block always raises (the
exception is swallowed by the source's bare `except: pass`), for the C5 and
C10 counterexamples. Everything else succeeds. -/
def cenvDelFail : TEnv where
  fsExists := fun _ => true
  readPdf := fun _ => .error "pdf"
  readFile := fun p => .ok ("hello " ++ p)
  loadModel := .ok ()
  encode := fun _ => []
  initCollection := .ok ()
  getDelete := fun _ => .error "db"
  addRecords := fun _ => .ok ()
  search := fun _ _ _ => .ok []

/-- A world holding one stale chunk for `d.txt` at `chunk_index = 5`, for the
C5 counterexample. -/
def cwStale : TWorld :=
  { modelLoaded := false, collectionInit := false,
    store := [{ id := "d.txt_5", doc := ['s'], embedding := [],
                filename := "d.txt", filePath := "old/d.txt", chunkIndex := 5 }],
    deleteCalls := 0, addCalls := 0 }

def crA2 : IngestResult :=
  (addDocumentToKnowledgeBase cenvDelFail cw0 "old/d.txt").1

def cwA2 : TWorld :=
  (addDocumentToKnowledgeBase cenvDelFail cw0 "old/d.txt").2

def crB2 : IngestResult :=
  (addDocumentToKnowledgeBase cenvDelFail cwA2 "a/d.txt").1

def cwB2 : TWorld :=
  (addDocumentToKnowledgeBase cenvDelFail cwA2 "a/d.txt").2

end Archivist.Tools

namespace Archivist.PdfLoader

/-! ## pdf_loader.py: the vectorstore lifecycle and the answer pipeline

The module globals (`_vectorstore`, the persisted directory) are an explicit
world record; the external collaborators (opening a persisted Chroma store,
`Chroma.from_documents`, the retriever's similarity search, the generation
pipeline) are oracles. Every function returns its result together with the world after
it — mutations survive raised exceptions, as in Python. -/
/-- An abstract handle to an opened Chroma vectorstore. -/
structure VStore where
  id : Nat
deriving DecidableEq

/-- The module globals of pdf_loader.py plus call counters used to state how
often the directory was cleaned, the build attempted, the store reset and the
similarity search invoked. `dirNonempty` models "the persistence directory
exists and is non-empty". -/
structure LWorld where
  vs : Option VStore
  dirNonempty : Bool
  cleanCount : Nat
  buildCount : Nat
  resetCount : Nat
  searchCount : Nat
deriving DecidableEq

/-- The external collaborators of pdf_loader.py as oracles. `documents` is
the result of `_load_pdf_documents` (the page texts); `loadExisting` is the
outcome of opening the persisted store (`Chroma(persist_directory=...)`);
`buildResult n` is the outcome of the `n`-th `_build_vectorstore` call
(splitting + `Chroma.from_documents`); `search q n` is the outcome of the
`n`-th `retriever.invoke(q)`; `generate` is the generation pipeline. -/
structure LEnv where
  documents : List String
  loadExisting : Except String VStore
  buildResult : Nat → Except String VStore
  search : String → Nat → Except String (List String)
  generate : String → Except String String

/-- Model of `_clean_vectorstore_directory`: `shutil.rmtree` if the directory exists;
its own exceptions are caught and only logged, so the call never raises. -/
def cleanDir (w : LWorld) : LWorld :=
  { w with dirNonempty := false, cleanCount := w.cleanCount + 1 }

/-- Model of `_load_existing_vectorstore`: `None` when the directory is missing or
empty; otherwise try to open it, and on failure clean the directory when the
error is corruption-classified, returning `None` either way. -/
def loadExistingVectorstore (env : LEnv) (w : LWorld) : Option VStore × LWorld :=
  if w.dirNonempty = false then (none, w)
  else
    match env.loadExisting with
    | .ok vs => (some vs, w)
    | .error e => (none, if isDatabaseError e then cleanDir w else w)

/-- The fixed message of the `FileNotFoundError` raised when no PDF documents
are found (the source message also embeds the configured directory paths). -/
def noPdfsMsg : String := "No PDF documents found in the PDF directory"

/-- Model of `_build_vectorstore(documents, persist_dir)`: raises when `documents` is
empty; otherwise splits and embeds via `Chroma.from_documents` (the oracle),
persisting into the directory on success. -/
def buildVectorstore (env : LEnv) (w : LWorld) : Except String VStore × LWorld :=
  let n := w.buildCount
  let w1 := { w with buildCount := n + 1 }
  if env.documents.isEmpty then
    (.error "No documents provided to build vectorstore", w1)
  else
    match env.buildResult n with
    | .ok vs => (.ok vs, { w1 with dirNonempty := true })
    | .error e => (.error e, w1)

/-- Model of `get_or_create_vectorstore()`: return the cached handle if set; else try
to load the persisted store; else build from the PDF corpus — raising
`FileNotFoundError` when no documents exist, and otherwise cleaning the
directory, building, and on a build exception cleaning and retrying exactly
once, the second failure propagating. -/
def getOrCreateVectorstore (env : LEnv) (w : LWorld) :
    Except String VStore × LWorld :=
  match w.vs with
  | some vs => (.ok vs, w)
  | none =>
    match loadExistingVectorstore env w with
    | (some vs, w1) => (.ok vs, { w1 with vs := some vs })
    | (none, w1) =>
      if env.documents.isEmpty then (.error noPdfsMsg, w1)
      else
        let w2 := cleanDir w1
        match buildVectorstore env w2 with
        | (.ok vs, w3) => (.ok vs, { w3 with vs := some vs })
        | (.error _, w3) =>
          let w4 := cleanDir w3
          match buildVectorstore env w4 with
          | (.ok vs, w5) => (.ok vs, { w5 with vs := some vs })
          | (.error e2, w5) => (.error e2, w5)

/-- Model of `reset_vectorstore()`: clear the cached handle, then delete the persisted
directory. Never raises (`_clean_vectorstore_directory` swallows). -/
def resetVectorstore (w : LWorld) : LWorld :=
  cleanDir { w with vs := none, resetCount := w.resetCount + 1 }

/-- The body of the `try` inside `_retrieve_documents`: obtain the handle via
`get_or_create_vectorstore()` and run the retriever's similarity search. -/
def retrieveAttempt (env : LEnv) (q : String) (w : LWorld) :
    Except String (List String) × LWorld :=
  match getOrCreateVectorstore env w with
  | (.error e, w1) => (.error e, w1)
  | (.ok _, w1) =>
    let n := w1.searchCount
    let w2 := { w1 with searchCount := n + 1 }
    match env.search q n with
    | .ok docs => (.ok docs, w2)
    | .error e => (.error e, w2)

/-- The `for attempt in range(max_retries + 1)` loop of `_retrieve_documents`:
`remaining` counts the iterations left. On an exception at `attempt == 0`
that is corruption-classified, reset and continue; otherwise return the
structured error tuple. (`reset_vectorstore` cannot raise, so the source's
inner recovery `except` is dead.) -/
def retrieveLoop (env : LEnv) (q : String) :
    Nat → Nat → LWorld → (List String × String) × LWorld
  | 0, _, w => (([], "Failed to retrieve documents after recovery attempt"), w)
  | remaining + 1, attempt, w =>
    match retrieveAttempt env q w with
    | (.ok docs, w1) => ((docs, ""), w1)
    | (.error e, w1) =>
      if attempt = 0 ∧ isDatabaseError e then
        retrieveLoop env q remaining (attempt + 1) (resetVectorstore w1)
      else (([], "Error retrieving documents: " ++ e), w1)

/-- Model of `_retrieve_documents(query, max_retries=1)`. -/
def retrieveDocuments (env : LEnv) (q : String) (maxRetries : Nat) (w : LWorld) :
    (List String × String) × LWorld :=
  retrieveLoop env q (maxRetries + 1) 0 w

/-- Model of `_build_context_from_docs(docs, max_length=1000)`. -/
def buildContext (docs : List String) (maxLength : Nat) : String :=
  if docs.isEmpty then ""
  else
    let context := String.intercalate "\n\n" docs
    if maxLength < context.length then String.mk (context.toList.take maxLength)
    else context

/-- Model of `_format_prompt(context, query)`. -/
def formatPrompt (context q : String) : String :=
  if strTrim context ≠ "" then
    "Answer based on context: " ++ context ++ "... Question: " ++ q
  else "Answer: " ++ q

/-- Model of `_generate_response(prompt)`: any exception from the pipeline is caught
and replaced by a fixed error string. -/
def generateResponse (env : LEnv) (prompt : String) : String :=
  match env.generate prompt with
  | .ok t => t
  | .error _ => "Error generating response with the model."

/-- The result dictionary of `query_rag_system_local`. -/
structure RagResult where
  result : String
  sourceDocuments : List String
deriving DecidableEq

/-- Model of `query_rag_system_local(query)`: blank-query guard, retrieval with one
bounded corruption retry, then context assembly, prompt formatting and
generation. Total — every callee catches its own exceptions. -/
def queryRagSystemLocal (env : LEnv) (w : LWorld) (q : String) :
    RagResult × LWorld :=
  if strTrim q = "" then
    ({ result := "Please provide a valid query.", sourceDocuments := [] }, w)
  else
    match retrieveDocuments env q 1 w with
    | ((docs, errMsg), w1) =>
      if errMsg ≠ "" then
        ({ result := "Error processing query: " ++ errMsg,
           sourceDocuments := [] }, w1)
      else if docs.isEmpty then
        ({ result := "No relevant documents found for your query.",
           sourceDocuments := [] }, w1)
      else
        let context := buildContext docs 1000
        let prompt := formatPrompt context q
        let res := generateResponse env prompt
        ({ result := strTrim res, sourceDocuments := docs }, w1)

/-- Lifecycle environment whose builds always fail, for the C4 witness. -/
def cenvBuildFail : LEnv where
  documents := ["page"]
  loadExisting := .error "x"
  buildResult := fun _ => .error "boom"
  search := fun _ _ => .ok []
  generate := fun _ => .ok "ans"

/-- The fresh-process world of pdf_loader.py. -/
def clw0 : LWorld :=
  { vs := none, dirNonempty := false, cleanCount := 0, buildCount := 0,
    resetCount := 0, searchCount := 0 }

/-- Lifecycle environment for the C1 witness: the first similarity search
raises a disk I/O error; after the reset the rebuild finds no documents. -/
def cenvC1 : LEnv where
  documents := []
  loadExisting := .error "x"
  buildResult := fun _ => .error "b"
  search := fun _ n => if n = 0 then .error "disk I/O error" else .error "again"
  generate := fun _ => .ok "ans"

/-- A world with a ready cached handle, for the C1 witness. -/
def clwReady : LWorld :=
  { vs := some ⟨0⟩, dirNonempty := true, cleanCount := 0, buildCount := 0,
    resetCount := 0, searchCount := 0 }

/-- World `clwReady` after the failed first search. -/
def clw1 : LWorld :=
  { vs := some ⟨0⟩, dirNonempty := true, cleanCount := 0, buildCount := 0,
    resetCount := 0, searchCount := 1 }

/-- World `clw1` after the reset (the failing retry leaves it unchanged). -/
def clw2 : LWorld :=
  { vs := none, dirNonempty := false, cleanCount := 1, buildCount := 0,
    resetCount := 1, searchCount := 1 }

end Archivist.PdfLoader

/-! ## Theorems -/

namespace Archivist

theorem startsWithNeedle_iff (needle hay : List Char) :
    startsWithNeedle needle hay = true ↔ ∃ r, hay = needle ++ r := by
  induction needle generalizing hay with
  | nil => simp [startsWithNeedle]
  | cons a as ih =>
    cases hay with
    | nil => simp [startsWithNeedle]
    | cons b bs =>
      simp only [startsWithNeedle, Bool.and_eq_true, decide_eq_true_eq, ih,
        List.cons_append, List.cons.injEq]
      constructor
      · rintro ⟨rfl, r, rfl⟩; exact ⟨r, rfl, rfl⟩
      · rintro ⟨r, rfl, rfl⟩; exact ⟨rfl, r, rfl⟩

theorem containsSubstring_iff (hay needle : List Char) :
    containsSubstring hay needle = true ↔ ∃ l r, hay = l ++ needle ++ r := by
  induction hay with
  | nil =>
    simp only [containsSubstring, startsWithNeedle_iff]
    constructor
    · rintro ⟨r, h⟩
      exact ⟨[], r, by simpa using h⟩
    · rintro ⟨l, r, h⟩
      refine ⟨r, ?_⟩
      rcases l with _ | ⟨c, l⟩ <;> simp_all
  | cons c t ih =>
    simp only [containsSubstring, Bool.or_eq_true, startsWithNeedle_iff, ih]
    constructor
    · rintro (⟨r, h⟩ | ⟨l, r, rfl⟩)
      · exact ⟨[], r, by simpa using h⟩
      · exact ⟨c :: l, r, rfl⟩
    · rintro ⟨l, r, h⟩
      rcases l with _ | ⟨b, l⟩
      · exact Or.inl ⟨r, by simpa using h⟩
      · rcases h with ⟨rfl, rfl⟩
        exact Or.inr ⟨l, r, rfl⟩

end Archivist

namespace Archivist.PdfLoader

/-- C3: the corruption classifier `_is_database_error` returns true if and only
if the lower-cased message of the error contains one of the fixed substrings
"disk i/o error", "database error", or "error getting collection"; no other
error is treated as persisted-index corruption. -/
theorem isDatabaseError_characterization (msg : String) :
    isDatabaseError msg = true ↔
      ((∃ l r, (strLower msg).toList = l ++ "disk i/o error".toList ++ r) ∨
       (∃ l r, (strLower msg).toList = l ++ "database error".toList ++ r) ∨
       (∃ l r, (strLower msg).toList = l ++ "error getting collection".toList ++ r)) := by
  simp only [isDatabaseError, dbErrorIndicators, List.any_cons, List.any_nil,
    Bool.or_eq_true, Bool.or_false, containsSubstring_iff]

end Archivist.PdfLoader

namespace Archivist.Tools

theorem nextStart_advance (start : Nat) (stop : Int) (overlap : Nat) :
    start + 1 ≤ nextStart start stop overlap :=
  Nat.le_max_right _ _

theorem chunkLoopFuel_ne_none (s : List Char) (size overlap : Nat) :
    ∀ (fuel start : Nat) (acc : List (List Char)),
      s.length - start < fuel →
      chunkLoopFuel s size overlap fuel start acc ≠ none := by
  intro fuel
  induction fuel with
  | zero => intro start acc h; omega
  | succ n ih =>
    intro start acc h
    unfold chunkLoopFuel
    by_cases hs : start < s.length
    · simp only [hs, if_true]
      cases chunkStep s size start with
      | error e => simp
      | ok p =>
        rcases p with ⟨chunk?, stop⟩
        simp only
        by_cases hstop : (s.length : Int) ≤ stop
        · simp [hstop]
        · simp only [hstop, if_false]
          apply ih
          have := nextStart_advance start stop overlap
          omega
    · simp [hs]

theorem chunkText_ne_none (s : List Char) (size overlap : Nat) :
    chunkText s size overlap ≠ none := by
  unfold chunkText
  by_cases h : s.length ≤ size
  · simp [h]
  · simp only [h, if_false]
    exact chunkLoopFuel_ne_none s size overlap (s.length + 1) 0 [] (by omega)

/-- C7: for every finite input text, size ≥ 1 and overlap ≥ 0 (including
overlap ≥ size) the chunking loop terminates: the window start advances by at
least 1 character per iteration (so it is monotonically non-decreasing), and
fuel `len(text) + 1` — i.e. at most `len(text)` loop iterations — always
suffices, so `chunkText` never exhausts its fuel. -/
theorem chunk_loop_termination (s : List Char) (size overlap : Nat)
    (hsize : 1 ≤ size) :
    (∀ (start : Nat) (stop : Int), start + 1 ≤ nextStart start stop overlap) ∧
    (∀ (fuel start : Nat) (acc : List (List Char)),
        s.length - start < fuel →
        chunkLoopFuel s size overlap fuel start acc ≠ none) ∧
    chunkText s size overlap ≠ none :=
  ⟨fun start stop => nextStart_advance start stop overlap,
   chunkLoopFuel_ne_none s size overlap,
   chunkText_ne_none s size overlap⟩

theorem chunk_loop_termination_witness :
    1 ≤ 1 ∧ chunkLoopFuel ['a', 'b'] 1 0 3 0 [] ≠ none ∧
      chunkText ['a', 'b'] 1 0 ≠ none :=
  ⟨Nat.le_refl 1,
   (chunk_loop_termination ['a', 'b'] 1 0 (by decide)).2.1 3 0 [] (by decide),
   (chunk_loop_termination ['a', 'b'] 1 0 (by decide)).2.2⟩

/-- C8 counterexample: the claim says the short-text path returns the trimmed
text, but `_chunk_text` returns `[text]` untrimmed when `len(text) <= size`:
on the two-character text `" a"` (length 2 ≤ 1000) it returns `[" a"]`,
not `["a"]`. -/
theorem chunkText_short_untrimmed_cex :
    chunkText [' ', 'a'] 1000 200 = some (.ok [[' ', 'a']]) ∧
    chunkText [' ', 'a'] 1000 200 ≠ some (.ok [trimChars [' ', 'a']]) :=
  ⟨by decide, by decide⟩

/-- C8 amended: for every text with `len(text) <= size`,
`_chunk_text(text, size, overlap)` returns the single-element sequence
containing the text itself (not trimmed). -/
theorem chunkText_short (s : List Char) (size overlap : Nat)
    (h : s.length ≤ size) :
    chunkText s size overlap = some (.ok [s]) := by
  simp [chunkText, h]

theorem chunkText_short_witness :
    ([' ', 'a'] : List Char).length ≤ 1000 ∧
      chunkText [' ', 'a'] 1000 200 = some (.ok [[' ', 'a']]) :=
  ⟨by decide, chunkText_short [' ', 'a'] 1000 200 (by decide)⟩

/-! ### C9: the score transform and result ordering -/
theorem ratFloor_eq_floor (x : ℚ) : x.floor = ⌊x⌋ :=
  (Rat.floor_def' x).trans Rat.floor_def.symm

theorem roundHalfEven_bounds (x : ℚ) :
    ⌊x⌋ ≤ roundHalfEven x ∧ roundHalfEven x ≤ ⌊x⌋ + 1 := by
  unfold roundHalfEven
  simp only [ratFloor_eq_floor]
  split_ifs <;> omega

theorem roundHalfEven_mono {x y : ℚ} (h : x ≤ y) :
    roundHalfEven x ≤ roundHalfEven y := by
  have hf : ⌊x⌋ ≤ ⌊y⌋ := Int.floor_mono h
  rcases eq_or_lt_of_le hf with heq | hlt
  · unfold roundHalfEven
    simp only [ratFloor_eq_floor, ← heq]
    split_ifs <;> first | omega | (exfalso; linarith)
  · have b1 := roundHalfEven_bounds x
    have b2 := roundHalfEven_bounds y
    omega

theorem round4_mono {x y : ℚ} (h : x ≤ y) : round4 x ≤ round4 y := by
  unfold round4
  have h1 : roundHalfEven (x * 10000) ≤ roundHalfEven (y * 10000) :=
    roundHalfEven_mono (by linarith)
  have h2 : ((roundHalfEven (x * 10000) : ℤ) : ℚ) ≤ ((roundHalfEven (y * 10000) : ℤ) : ℚ) := by
    exact_mod_cast h1
  linarith

theorem round4_of_distance_small : round4 (1 - (1 : ℚ) / 100000) = 1 := by
  have hfl : ((1 - (1 : ℚ) / 100000) * 10000).floor = 9999 := by
    rw [ratFloor_eq_floor, Int.floor_eq_iff]
    norm_num
  simp only [round4, roundHalfEven, hfl]
  rw [if_neg (by norm_num), if_pos (by norm_num)]
  norm_num

/-- C9 counterexample: the claim says each formatted result's score equals
`1 - distance`, but the source stores `round(1.0 - distance, 4)`: at
`distance = 1/100000` the stored score is `1`, not `1 - 1/100000 = 0.99999`. -/
theorem formatHits_score_not_exact_cex :
    (formatHits [cexHit]).map (fun h => h.score) = [(1 : ℚ)] ∧
    (formatHits [cexHit]).map (fun h => h.score) ≠ [1 - (1 : ℚ) / 100000] := by
  have h1 : (formatHits [cexHit]).map (fun h => h.score) = [(1 : ℚ)] := by
    simp only [formatHits, cexHit, List.map_cons, List.map_nil, List.cons.injEq, and_true]
    exact round4_of_distance_small
  refine ⟨h1, ?_⟩
  rw [h1]
  intro hcontra
  rw [List.cons.injEq] at hcontra
  have h2 := hcontra.1
  norm_num at h2

/-- C9 amended: for every query whose underlying index search returns matches
in ascending-distance order, each formatted result's score equals
`1 - distance` rounded half-to-even to 4 decimal places, and the result list
satisfies `results[i].score >= results[i+1].score` for all valid `i` (the
order of the index's matches is preserved, not re-sorted). -/
theorem formatHits_scores_sorted (hits : List Hit)
    (hsorted : List.Chain' (fun a b => a.distance ≤ b.distance) hits) :
    (formatHits hits).map (fun h => h.score)
        = hits.map (fun h => round4 (1 - h.distance)) ∧
    List.Chain' (fun a b => b ≤ a) ((formatHits hits).map (fun h => h.score)) := by
  have hmap : (formatHits hits).map (fun h => h.score)
      = hits.map (fun h => round4 (1 - h.distance)) := by
    simp [formatHits, Function.comp]
  refine ⟨hmap, ?_⟩
  rw [hmap, List.chain'_map]
  exact hsorted.imp (fun a b hab => round4_mono (by linarith))

theorem getEmbeddingModel_frame (env : TEnv) (w : TWorld)
    (res : Except String Unit) (w1 : TWorld)
    (h : getEmbeddingModel env w = (res, w1)) :
    w1.store = w.store ∧ w1.deleteCalls = w.deleteCalls := by
  unfold getEmbeddingModel at h
  by_cases hm : w.modelLoaded
  · rw [if_pos hm] at h
    simp only [Prod.mk.injEq] at h
    rw [← h.2]
    exact ⟨rfl, rfl⟩
  · rw [if_neg hm] at h
    cases henv : env.loadModel <;> rw [henv] at h <;>
      simp only [Prod.mk.injEq] at h <;> rw [← h.2] <;> exact ⟨rfl, rfl⟩

theorem getChromaCollection_frame (env : TEnv) (w : TWorld)
    (res : Except String Unit) (w1 : TWorld)
    (h : getChromaCollection env w = (res, w1)) :
    w1.store = w.store ∧ w1.deleteCalls = w.deleteCalls := by
  unfold getChromaCollection at h
  by_cases hc : w.collectionInit
  · rw [if_pos hc] at h
    simp only [Prod.mk.injEq] at h
    rw [← h.2]
    exact ⟨rfl, rfl⟩
  · rw [if_neg hc] at h
    cases henv : env.initCollection <;> rw [henv] at h <;>
      simp only [Prod.mk.injEq] at h <;> rw [← h.2] <;> exact ⟨rfl, rfl⟩

theorem delStore_filter_nil (st : List Rec) (name : String) :
    (delStore st name).filter (fun rec => rec.filename == name) = [] := by
  unfold delStore
  by_cases hids :
      ((st.filter (fun rec => rec.filename == name)).map (fun rec => rec.id)).isEmpty
  · rw [if_pos hids]
    rw [List.isEmpty_iff, List.map_eq_nil_iff] at hids
    exact hids
  · rw [if_neg hids]
    rw [List.filter_eq_nil_iff]
    intro a ha hp
    rw [List.mem_filter] at ha
    obtain ⟨hmem, hnc⟩ := ha
    have hid : a.id ∈ (st.filter (fun rec => rec.filename == name)).map (fun rec => rec.id) :=
      List.mem_map_of_mem _ (List.mem_filter.mpr ⟨hmem, hp⟩)
    rw [Bool.not_eq_true'] at hnc
    simp only [List.contains, List.elem_eq_mem, decide_eq_false_iff_not] at hnc
    exact hnc hid

theorem deleteExisting_store_ok (env : TEnv) (w : TWorld) (name : String)
    (h : env.getDelete w.deleteCalls = .ok ()) :
    (deleteExisting env w name).store = delStore w.store name := by
  simp [deleteExisting, h]

theorem deleteExisting_store_err (env : TEnv) (w : TWorld) (name : String)
    (e : String) (h : env.getDelete w.deleteCalls = .error e) :
    (deleteExisting env w name).store = w.store := by
  simp [deleteExisting, h]

theorem mkRecords_filter_self (name fp : String) (enc : List Char → List ℚ)
    (chunks : List (List Char)) :
    (mkRecords name fp enc chunks).filter (fun rec => rec.filename == name)
      = mkRecords name fp enc chunks := by
  rw [List.filter_eq_self]
  intro a ha
  unfold mkRecords at ha
  obtain ⟨p, hp, rfl⟩ := List.mem_map.mp ha
  simp

/-- After a delete-then-add sequence in which the delete block succeeded, the
records whose `filename` metadata equals the ingested basename are exactly
the freshly added records. -/
theorem store_filter_after_ingest (st : List Rec) (name fp : String)
    (enc : List Char → List ℚ) (chunks : List (List Char)) :
    (delStore st name ++ mkRecords name fp enc chunks).filter
        (fun rec => rec.filename == name)
      = mkRecords name fp enc chunks := by
  rw [List.filter_append, delStore_filter_nil, mkRecords_filter_self,
    List.nil_append]

theorem mkRecords_map_id (name fp : String) (enc : List Char → List ℚ)
    (chunks : List (List Char)) :
    (mkRecords name fp enc chunks).map (fun rec => rec.id)
      = (List.range chunks.length).map (fun i => name ++ "_" ++ toString i) := by
  unfold mkRecords
  rw [List.map_map]
  have h1 : ((fun rec => rec.id) ∘ (fun p : Nat × List Char =>
      ({ id := name ++ "_" ++ toString p.1, doc := p.2, embedding := enc p.2,
         filename := name, filePath := fp, chunkIndex := p.1 } : Rec)))
      = (fun i => name ++ "_" ++ toString i) ∘ Prod.fst := rfl
  rw [h1, ← List.map_map]
  have h2 : chunks.enum.map Prod.fst = List.range chunks.length := by
    rw [show chunks.enum = chunks.enumFrom 0 from rfl, List.enumFrom_map_fst,
      ← List.range_eq_range']
  rw [h2]

theorem mkRecords_map_chunkIndex (name fp : String) (enc : List Char → List ℚ)
    (chunks : List (List Char)) :
    (mkRecords name fp enc chunks).map (fun rec => rec.chunkIndex)
      = List.range chunks.length := by
  unfold mkRecords
  rw [List.map_map]
  have h1 : ((fun rec => rec.chunkIndex) ∘ (fun p : Nat × List Char =>
      ({ id := name ++ "_" ++ toString p.1, doc := p.2, embedding := enc p.2,
         filename := name, filePath := fp, chunkIndex := p.1 } : Rec)))
      = (Prod.fst : Nat × List Char → Nat) := rfl
  rw [h1, show chunks.enum = chunks.enumFrom 0 from rfl, List.enumFrom_map_fst,
    ← List.range_eq_range']

theorem mkRecords_length (name fp : String) (enc : List Char → List ℚ)
    (chunks : List (List Char)) :
    (mkRecords name fp enc chunks).length = chunks.length := by
  unfold mkRecords
  rw [List.length_map, show chunks.enum = chunks.enumFrom 0 from rfl,
    List.enumFrom_length]

/-- The success path of the ingestion body: the chunks are determined by
extraction and chunking, and the final store is the previous store — with the
filename's records removed when the swallowed delete block succeeded, and
untouched when it raised — followed by the freshly added records. -/
theorem addDocBody_success (env : TEnv) (w : TWorld) (fp : String)
    (r : IngestResult) (w' : TWorld)
    (h : addDocBody env w fp = (.ok r, w'))
    (hs : r.success = true) :
    ∃ chunks, ingestedChunks env fp = some chunks ∧
      r.chunksAdded = chunks.length ∧
      ((env.getDelete w.deleteCalls = .ok () ∧
          w'.store = delStore w.store (basename fp)
            ++ mkRecords (basename fp) fp env.encode chunks) ∨
       ((∃ e, env.getDelete w.deleteCalls = .error e) ∧
          w'.store = w.store ++ mkRecords (basename fp) fp env.encode chunks)) := by
  unfold addDocBody at h
  split at h
  · simp only [Prod.mk.injEq, Except.ok.injEq] at h
    obtain ⟨rfl, rfl⟩ := h
    simp at hs
  · rename_i hfp
    split at h
    · simp at h
    · rename_i text hext
      split at h
      · rename_i htext
        simp only [Prod.mk.injEq, Except.ok.injEq] at h
        obtain ⟨rfl, rfl⟩ := h
        simp at hs
      · rename_i htext
        split at h
        · simp at h
        · simp at h
        · rename_i chunks hchunks
          split at h
          · simp at h
          · rename_i w1 hgem
            split at h
            · simp at h
            · rename_i w2 hgcc
              dsimp only at h
              split at h
              · simp at h
              · simp only [Prod.mk.injEq, Except.ok.injEq] at h
                obtain ⟨rfl, rfl⟩ := h
                refine ⟨chunks, ?_, rfl, ?_⟩
                · simp [ingestedChunks, hfp, hext, htext, hchunks]
                · obtain ⟨e1s, e1d⟩ := getEmbeddingModel_frame env w _ w1 hgem
                  obtain ⟨e2s, e2d⟩ := getChromaCollection_frame env w1 _ w2 hgcc
                  cases hd : env.getDelete w2.deleteCalls with
                  | ok u =>
                    cases u
                    refine Or.inl ⟨?_, ?_⟩
                    · rw [e2d, e1d] at hd
                      exact hd
                    · show (deleteExisting env w2 (basename fp)).store
                          ++ mkRecords (basename fp) fp env.encode chunks = _
                      rw [deleteExisting_store_ok env w2 (basename fp) hd, e2s, e1s]
                  | error e =>
                    refine Or.inr ⟨⟨e, ?_⟩, ?_⟩
                    · rw [e2d, e1d] at hd
                      exact hd
                    · show (deleteExisting env w2 (basename fp)).store
                          ++ mkRecords (basename fp) fp env.encode chunks = _
                      rw [deleteExisting_store_err env w2 (basename fp) e hd, e2s, e1s]

/-- After a successful call to the ingestion boundary, the stored records are
those of `addDocBody_success`: the delete-before-add block either succeeded
(records for the basename removed) or raised and was swallowed (store
untouched), and the fresh records were appended. -/
theorem addDoc_success_store (env : TEnv) (w : TWorld) (fp : String)
    (r : IngestResult) (w' : TWorld)
    (h : addDocumentToKnowledgeBase env w fp = (r, w'))
    (hs : r.success = true) :
    ∃ chunks, ingestedChunks env fp = some chunks ∧
      r.chunksAdded = chunks.length ∧
      ((env.getDelete w.deleteCalls = .ok () ∧
          w'.store = delStore w.store (basename fp)
            ++ mkRecords (basename fp) fp env.encode chunks) ∨
       ((∃ e, env.getDelete w.deleteCalls = .error e) ∧
          w'.store = w.store ++ mkRecords (basename fp) fp env.encode chunks)) := by
  rcases hb : addDocBody env w fp with ⟨res, w2⟩
  unfold addDocumentToKnowledgeBase at h
  rw [hb] at h
  cases res with
  | error e =>
    simp only [Prod.mk.injEq] at h
    obtain ⟨rfl, rfl⟩ := h
    simp at hs
  | ok rb =>
    simp only [Prod.mk.injEq] at h
    obtain ⟨rfl, rfl⟩ := h
    exact addDocBody_success env w fp rb w2 hb hs

/-- C5 counterexample: the claim as stated is false on the code because the
delete-before-add block's exceptions are swallowed by a bare `except: pass`
(tools.py lines 167-172). With the store holding a stale `d.txt` chunk at
`chunk_index = 5` and the `collection.get`/`collection.delete` pair raising,
ingesting `a/d.txt` still returns `success=true` with `chunks_added = 1` —
yet the chunks stored for `d.txt` are not exactly ids `d.txt_0` with
`chunk_index` `0..0`: the stale chunk survives. -/
theorem ingestion_exact_chunks_cex :
    (addDocumentToKnowledgeBase cenvDelFail cwStale "a/d.txt").1.success = true ∧
    (addDocumentToKnowledgeBase cenvDelFail cwStale "a/d.txt").1.chunksAdded = 1 ∧
    ((addDocumentToKnowledgeBase cenvDelFail cwStale "a/d.txt").2.store.filter
        (fun rec => rec.filename == basename "a/d.txt")).map (fun rec => rec.chunkIndex)
      ≠ List.range
          (addDocumentToKnowledgeBase cenvDelFail cwStale "a/d.txt").1.chunksAdded ∧
    ((addDocumentToKnowledgeBase cenvDelFail cwStale "a/d.txt").2.store.filter
        (fun rec => rec.filename == basename "a/d.txt")).map (fun rec => rec.id)
      ≠ (List.range
          (addDocumentToKnowledgeBase cenvDelFail cwStale "a/d.txt").1.chunksAdded).map
          (fun i => basename "a/d.txt" ++ "_" ++ toString i) :=
  ⟨by decide, by decide, by decide, by decide⟩

/-- C5 amended: after every successful ingestion of a source document
producing N chunks (`N = chunks_added`) in which the best-effort
delete-before-add step did not silently fail (the `collection.get`/`delete`
pair did not raise into the bare `except: pass`), the collection holds
exactly the chunks with ids `{source_name}_0 .. {source_name}_{N-1}` for
that `source_name` (the basename of the ingested path): the stored ids are
exactly those, the `chunk_index` values are exactly `0..N-1` with no gaps,
and the number of stored chunks for that source is exactly N — in
particular, re-ingesting the same source under a successful delete leaves
exactly the second ingestion's N chunks. When the delete raises, the
ingestion still reports success but stale chunks for the source may
survive, so the unconditional claim fails. -/
theorem ingestion_exact_chunks (env : TEnv) (w : TWorld) (fp : String)
    (r : IngestResult) (w' : TWorld)
    (h : addDocumentToKnowledgeBase env w fp = (r, w'))
    (hs : r.success = true)
    (hdel : env.getDelete w.deleteCalls = .ok ()) :
    ((w'.store.filter (fun rec => rec.filename == basename fp)).map (fun rec => rec.id)
        = (List.range r.chunksAdded).map (fun i => basename fp ++ "_" ++ toString i)) ∧
    ((w'.store.filter (fun rec => rec.filename == basename fp)).map (fun rec => rec.chunkIndex)
        = List.range r.chunksAdded) ∧
    (w'.store.filter (fun rec => rec.filename == basename fp)).length = r.chunksAdded := by
  obtain ⟨chunks, hck, hlen, hcase⟩ := addDoc_success_store env w fp r w' h hs
  rcases hcase with ⟨_, hst⟩ | ⟨⟨e, he⟩, _⟩
  · rw [hst, store_filter_after_ingest, hlen]
    exact ⟨mkRecords_map_id _ _ _ _, mkRecords_map_chunkIndex _ _ _ _,
      mkRecords_length _ _ _ _⟩
  · rw [hdel] at he
    simp at he

theorem ingestion_exact_chunks_witness :
    ((cw5.store.filter (fun rec => rec.filename == basename "a/d.txt")).map
          (fun rec => rec.id)
        = (List.range cr5.chunksAdded).map
            (fun i => basename "a/d.txt" ++ "_" ++ toString i)) ∧
    ((cw5.store.filter (fun rec => rec.filename == basename "a/d.txt")).map
          (fun rec => rec.chunkIndex)
        = List.range cr5.chunksAdded) ∧
    (cw5.store.filter (fun rec => rec.filename == basename "a/d.txt")).length
        = cr5.chunksAdded :=
  ingestion_exact_chunks cenvOk cwPre "a/d.txt" cr5 cw5 rfl (by decide) rfl

/-- C10 counterexample: the claim as stated is false on the code because A's
chunks are only best-effort-deleted. With the `collection.get`/`delete` pair
raising (swallowed by the bare `except: pass`), ingesting `old/d.txt` and
then the distinct path `a/d.txt` — equal basenames `d.txt`, both ingestions
reported successful — leaves a stored chunk under that filename that still
carries the first path as its `file_path`. -/
theorem reingestion_keyed_by_basename_cex :
    basename "old/d.txt" = basename "a/d.txt" ∧
    ("old/d.txt" : String) ≠ "a/d.txt" ∧
    crA2.success = true ∧
    crB2.success = true ∧
    ¬ (∀ rec ∈ cwB2.store.filter (fun rec => rec.filename == basename "a/d.txt"),
        rec.filePath = "a/d.txt") :=
  ⟨by decide, by decide, by decide, by decide, by decide⟩

/-- C10 amended: ingested documents are keyed by the basename of
`source_path`, not the full path — provided the delete-before-add step of
the second ingestion does not silently fail. For distinct paths A and B with
equal basenames: after successfully ingesting A and then B, where B's
delete block succeeded, all of A's chunks are removed — the chunks stored
under that filename are exactly B's ingestion records, every one carries
B's `file_path` (never A's) and B's content, the stored ids `{basename}_{i}`
come only from B's ingestion, and none of the records A's ingestion wrote
remain in the store. When B's swallowed delete fails, A's stale chunks can
survive B's successful ingestion, so the unconditional claim fails. -/
theorem reingestion_keyed_by_basename (env : TEnv) (w : TWorld) (A B : String)
    (r1 : IngestResult) (w1 : TWorld) (r2 : IngestResult) (w2 : TWorld)
    (hA : addDocumentToKnowledgeBase env w A = (r1, w1))
    (h1 : r1.success = true)
    (hB : addDocumentToKnowledgeBase env w1 B = (r2, w2))
    (h2 : r2.success = true)
    (hbase : basename A = basename B)
    (hAB : A ≠ B)
    (hdelB : env.getDelete w1.deleteCalls = .ok ()) :
    ∃ chunksB, ingestedChunks env B = some chunksB ∧
      w2.store.filter (fun rec => rec.filename == basename A)
        = mkRecords (basename B) B env.encode chunksB ∧
      (∀ rec ∈ w2.store.filter (fun rec => rec.filename == basename A),
          rec.filePath = B ∧ rec.filePath ≠ A) ∧
      (w2.store.filter (fun rec => rec.filename == basename A)).map (fun rec => rec.id)
        = (List.range r2.chunksAdded).map
            (fun i => basename B ++ "_" ++ toString i) ∧
      (∃ chunksA, ingestedChunks env A = some chunksA ∧
          ∀ rec ∈ mkRecords (basename A) A env.encode chunksA,
            rec ∉ w2.store) := by
  obtain ⟨chunksB, hckB, hlenB, hcaseB⟩ := addDoc_success_store env w1 B r2 w2 hB h2
  have hstB : w2.store = delStore w1.store (basename B)
      ++ mkRecords (basename B) B env.encode chunksB := by
    rcases hcaseB with ⟨_, hst⟩ | ⟨⟨e, he⟩, _⟩
    · exact hst
    · rw [hdelB] at he
      simp at he
  refine ⟨chunksB, hckB, ?_, ?_, ?_, ?_⟩
  · rw [hbase, hstB, store_filter_after_ingest]
  · intro rec hrec
    rw [hbase, hstB, store_filter_after_ingest] at hrec
    unfold mkRecords at hrec
    obtain ⟨p, hp, rfl⟩ := List.mem_map.mp hrec
    exact ⟨rfl, fun hc => hAB (Eq.symm hc)⟩
  · rw [hbase, hstB, store_filter_after_ingest, hlenB]
    exact mkRecords_map_id _ _ _ _
  · obtain ⟨chunksA, hckA, _, _⟩ := addDoc_success_store env w A r1 w1 hA h1
    refine ⟨chunksA, hckA, ?_⟩
    intro rec hrecA hmem
    unfold mkRecords at hrecA
    obtain ⟨pa, hpa, rfl⟩ := List.mem_map.mp hrecA
    rw [hstB] at hmem
    rcases List.mem_append.mp hmem with hd | hb
    · have hnil := List.filter_eq_nil_iff.mp (delStore_filter_nil w1.store (basename B))
      exact hnil _ hd (by simp [hbase])
    · unfold mkRecords at hb
      obtain ⟨pb, hpb, heq⟩ := List.mem_map.mp hb
      have hBA : B = A := congrArg (fun rec => rec.filePath) heq
      exact hAB (Eq.symm hBA)

theorem reingestion_keyed_by_basename_witness :
    ∃ chunksB, ingestedChunks cenvOk "a/d.txt" = some chunksB ∧
      cwB.store.filter (fun rec => rec.filename == basename "old/d.txt")
        = mkRecords (basename "a/d.txt") "a/d.txt" cenvOk.encode chunksB ∧
      (∀ rec ∈ cwB.store.filter (fun rec => rec.filename == basename "old/d.txt"),
          rec.filePath = "a/d.txt" ∧ rec.filePath ≠ "old/d.txt") ∧
      (cwB.store.filter (fun rec => rec.filename == basename "old/d.txt")).map
          (fun rec => rec.id)
        = (List.range crB.chunksAdded).map
            (fun i => basename "a/d.txt" ++ "_" ++ toString i) ∧
      (∃ chunksA, ingestedChunks cenvOk "old/d.txt" = some chunksA ∧
          ∀ rec ∈ mkRecords (basename "old/d.txt") "old/d.txt" cenvOk.encode chunksA,
            rec ∉ cwB.store) :=
  reingestion_keyed_by_basename cenvOk
    { modelLoaded := false, collectionInit := false, store := [],
      deleteCalls := 0, addCalls := 0 }
    "old/d.txt" "a/d.txt" crA cwA crB cwB
    rfl (by decide) rfl (by decide) (by decide) (by decide) (by decide)

/-! ### C2: boundary operations never raise -/
/-- C2: each boundary operation (ingest one document; query with a string
argument) returns a structured result object with a success field and never
raises: a normal return of the body passes through unchanged, and every
exception raised inside the body is caught by the boundary `try`/`except`
and converted into the `success=false` structured error dictionary.
(The third boundary, `query_rag_system_local`, is total by construction in
this embedding — see `Archivist.PdfLoader.queryRagSystemLocal` — because all
of its callees catch internally.) -/
theorem boundary_operations_structured (env : TEnv) (w : TWorld) (fp q : String)
    (topK : Int) :
    (∀ e w', addDocBody env w fp = (.error e, w') →
        addDocumentToKnowledgeBase env w fp =
          ({ success := false, message := "Error procesando documento: " ++ e,
             chunksAdded := 0, fileName := none, filePath := none }, w')) ∧
    (∀ r w', addDocBody env w fp = (.ok r, w') →
        addDocumentToKnowledgeBase env w fp = (r, w')) ∧
    (∀ e w', queryKBBody env w q topK = (.error e, w') →
        queryKnowledgeBase env w q topK =
          ({ success := false, query := some (if q = "" then "" else strTrim q),
             resultsCount := 0, results := [],
             message := "Error en consulta: " ++ e }, w')) ∧
    (∀ r w', queryKBBody env w q topK = (.ok r, w') →
        queryKnowledgeBase env w q topK = (r, w')) := by
  refine ⟨?_, ?_, ?_, ?_⟩ <;> intro a w' h <;>
    simp [addDocumentToKnowledgeBase, queryKnowledgeBase, h]

theorem boundary_operations_structured_witness :
    (addDocBody cenvMissing cw0 "x" = (.error "Archivo no encontrado: x", cw0) ∧
     addDocumentToKnowledgeBase cenvMissing cw0 "x" =
       ({ success := false,
          message := "Error procesando documento: Archivo no encontrado: x",
          chunksAdded := 0, fileName := none, filePath := none }, cw0)) ∧
    (queryKBBody cenvQFail cw0 "hi" 3 =
        (.error "db down", { cw0 with modelLoaded := true }) ∧
     queryKnowledgeBase cenvQFail cw0 "hi" 3 =
       ({ success := false, query := some "hi", resultsCount := 0, results := [],
          message := "Error en consulta: db down" }, { cw0 with modelLoaded := true })) :=
  ⟨⟨by decide,
    (boundary_operations_structured cenvMissing cw0 "x" "" 0).1 _ _ (by decide)⟩,
   ⟨by decide,
    (boundary_operations_structured cenvQFail cw0 "" "hi" 3).2.2.1 _ _ (by decide)⟩⟩

theorem formatHits_scores_sorted_witness :
    List.Chain' (fun a b => a.distance ≤ b.distance) witHits ∧
      ((formatHits witHits).map (fun h => h.score)
          = witHits.map (fun h => round4 (1 - h.distance)) ∧
       List.Chain' (fun a b => b ≤ a) ((formatHits witHits).map (fun h => h.score))) :=
  ⟨by norm_num [witHits, List.chain'_cons],
   formatHits_scores_sorted witHits (by norm_num [witHits, List.chain'_cons])⟩

end Archivist.Tools

namespace Archivist.PdfLoader

/-! ### C4: clean-and-retry-once in `get_or_create_vectorstore` -/
/-- C4: in `get_or_create_vectorstore`, when the build-from-corpus step
throws, the persistence directory is cleaned and the build is retried exactly
once; if the retry also fails, that second failure propagates to the caller
rather than being retried again or swallowed. Starting from no cached handle
and an empty persistence directory, with two failing build attempts: exactly
two build calls happen, the directory is cleaned twice (once before the first
build, once between the attempts), the second exception is the one returned,
and no handle is cached. -/
theorem build_retry_once (env : LEnv) (w : LWorld) (e1 e2 : String)
    (hvs : w.vs = none)
    (hdir : w.dirNonempty = false)
    (hdocs : env.documents.isEmpty = false)
    (hb1 : env.buildResult w.buildCount = .error e1)
    (hb2 : env.buildResult (w.buildCount + 1) = .error e2) :
    getOrCreateVectorstore env w =
      (.error e2,
       { w with dirNonempty := false,
                cleanCount := w.cleanCount + 2,
                buildCount := w.buildCount + 2 }) := by
  unfold getOrCreateVectorstore loadExistingVectorstore buildVectorstore cleanDir
  simp [hvs, hdir, hdocs, hb1, hb2]

theorem build_retry_once_witness :
    getOrCreateVectorstore cenvBuildFail clw0 =
      (.error "boom",
       { clw0 with dirNonempty := false, cleanCount := clw0.cleanCount + 2,
                   buildCount := clw0.buildCount + 2 }) :=
  build_retry_once cenvBuildFail clw0 "boom" "boom" rfl rfl rfl rfl rfl

/-! ### C6: the blank-query guard -/
/-- C6: for every query that is empty or consists only of whitespace (strips
to the empty string), `query_rag_system_local` returns the fixed "please
provide a valid query" result with an empty source-document list, and the
world is returned unchanged: no index access and no side effects — the cached
handle, the persisted directory and every call counter are untouched. -/
theorem blank_query_guard (env : LEnv) (w : LWorld) (q : String)
    (h : strTrim q = "") :
    queryRagSystemLocal env w q =
      ({ result := "Please provide a valid query.", sourceDocuments := [] }, w) := by
  unfold queryRagSystemLocal
  rw [if_pos h]

theorem blank_query_guard_witness :
    strTrim "   " = "" ∧
      queryRagSystemLocal cenvBuildFail clw0 "   " =
        ({ result := "Please provide a valid query.", sourceDocuments := [] }, clw0) :=
  ⟨by decide, blank_query_guard cenvBuildFail clw0 "   " (by decide)⟩

/-! ### C1: bounded corruption retry in the answer pipeline -/
theorem retrieveLoop_succ (env : LEnv) (q : String) (remaining attempt : Nat)
    (w : LWorld) :
    retrieveLoop env q (remaining + 1) attempt w =
      match retrieveAttempt env q w with
      | (.ok docs, w1) => ((docs, ""), w1)
      | (.error e, w1) =>
        if attempt = 0 ∧ isDatabaseError e then
          retrieveLoop env q remaining (attempt + 1) (resetVectorstore w1)
        else (([], "Error retrieving documents: " ++ e), w1) := rfl

theorem retrieveLoop_retry (env : LEnv) (q : String) (w : LWorld) :
    retrieveLoop env q 1 1 w =
      match retrieveAttempt env q w with
      | (.ok docs, w1) => ((docs, ""), w1)
      | (.error e, w1) =>
        if 1 = 0 ∧ isDatabaseError e then
          retrieveLoop env q 0 2 (resetVectorstore w1)
        else (([], "Error retrieving documents: " ++ e), w1) := rfl

theorem errMsg_ne_empty (e : String) :
    "Error retrieving documents: " ++ e ≠ "" := by
  intro hcontra
  have hlen : ("Error retrieving documents: " ++ e).length = 0 := by
    rw [hcontra]
    rfl
  rw [String.length_append] at hlen
  have h28 : ("Error retrieving documents: ").length = 28 := by decide
  omega

theorem queryRag_of_retrieve_error (env : LEnv) (w : LWorld) (q e : String)
    (w1 : LWorld)
    (hq : strTrim q ≠ "")
    (h : retrieveDocuments env q 1 w
        = (([], "Error retrieving documents: " ++ e), w1)) :
    queryRagSystemLocal env w q
      = ({ result := "Error processing query: "
             ++ ("Error retrieving documents: " ++ e),
           sourceDocuments := [] }, w1) := by
  unfold queryRagSystemLocal
  rw [if_neg hq, h]
  simp [errMsg_ne_empty e]

/-- C1: behaviour of the answer pipeline when the first retrieval attempt
raises (`max_retries = 1`, the default). If the error is
corruption-classified, `reset_vectorstore` is called — exactly one reset,
clearing the cached handle and deleting the persisted directory — and the
retrieval is retried exactly once: a successful retry returns its documents,
and any error on the retry is returned as the structured error tuple, which
`query_rag_system_local` wraps into an error message inside the result
dictionary. A non-corruption first error is returned the same way at once,
with no reset. The answer operation itself never raises (it is total, every
callee catching internally). -/
theorem corruption_retry (env : LEnv) (w : LWorld) (q : String) (e0 : String)
    (w1 : LWorld)
    (hq : strTrim q ≠ "")
    (h0 : retrieveAttempt env q w = (.error e0, w1)) :
    (isDatabaseError e0 = false →
        retrieveDocuments env q 1 w
            = (([], "Error retrieving documents: " ++ e0), w1) ∧
        queryRagSystemLocal env w q
            = ({ result := "Error processing query: "
                   ++ ("Error retrieving documents: " ++ e0),
                 sourceDocuments := [] }, w1)) ∧
    (isDatabaseError e0 = true →
      (resetVectorstore w1).resetCount = w1.resetCount + 1 ∧
      (resetVectorstore w1).vs = none ∧
      (resetVectorstore w1).dirNonempty = false ∧
      (∀ e1 w2, retrieveAttempt env q (resetVectorstore w1) = (.error e1, w2) →
          retrieveDocuments env q 1 w
              = (([], "Error retrieving documents: " ++ e1), w2) ∧
          queryRagSystemLocal env w q
              = ({ result := "Error processing query: "
                     ++ ("Error retrieving documents: " ++ e1),
                   sourceDocuments := [] }, w2)) ∧
      (∀ docs w2, retrieveAttempt env q (resetVectorstore w1) = (.ok docs, w2) →
          retrieveDocuments env q 1 w = ((docs, ""), w2))) := by
  constructor
  · intro hdb
    have hloop : retrieveDocuments env q 1 w
        = (([], "Error retrieving documents: " ++ e0), w1) := by
      unfold retrieveDocuments
      rw [retrieveLoop_succ, h0]
      simp [hdb]
    exact ⟨hloop, queryRag_of_retrieve_error env w q e0 w1 hq hloop⟩
  · intro hdb
    refine ⟨rfl, rfl, rfl, ?_, ?_⟩
    · intro e1 w2 h1
      have hloop : retrieveDocuments env q 1 w
          = (([], "Error retrieving documents: " ++ e1), w2) := by
        unfold retrieveDocuments
        rw [retrieveLoop_succ, h0]
        simp only [hdb]
        rw [if_pos ⟨trivial, trivial⟩, Nat.zero_add, retrieveLoop_retry, h1]
        simp
      exact ⟨hloop, queryRag_of_retrieve_error env w q e1 w2 hq hloop⟩
    · intro docs w2 h1
      unfold retrieveDocuments
      rw [retrieveLoop_succ, h0]
      simp only [hdb]
      rw [if_pos ⟨trivial, trivial⟩, Nat.zero_add, retrieveLoop_retry, h1]

theorem corruption_retry_witness :
    retrieveDocuments cenvC1 "q" 1 clwReady
        = (([], "Error retrieving documents: " ++ noPdfsMsg), clw2) ∧
    queryRagSystemLocal cenvC1 clwReady "q"
        = ({ result := "Error processing query: "
               ++ ("Error retrieving documents: " ++ noPdfsMsg),
             sourceDocuments := [] }, clw2) :=
  ((corruption_retry cenvC1 clwReady "q" "disk I/O error" clw1
      (by decide) (by decide)).2 (by decide)).2.2.2.1 noPdfsMsg clw2 (by decide)

end Archivist.PdfLoader
